import Mathlib

/-!
Shallow embedding of the ImageToUrlWeb upload service (src/app.py and its
near-duplicate src/api/app.py; the two deployments differ only in the
configured token prefix, the upload directory and comments, not in logic).
The embedding models the `/api/upload` handler (`api_upload_file`), the
`/share/<file_id>/<filename>` handler (`serve_shared_file`), werkzeug's
`secure_filename`, Python's `str.split()` / `str.lower()` on the ASCII
fragment relevant to the service, and `uuid.uuid4().hex[:12]` identifier
generation.  The storage backend (a directory of files written by
`file.save` and read by `send_from_directory`) is modelled as a flat
association list from storage keys to byte lists; this is adequate because
every key the service writes is a single path component (no directory
separators, proved below).
-/

namespace ImageToUrlWeb

/-- Bytes of an uploaded payload (each entry < 256 in intent; opacity is all
the claims need, so we use `List Nat`). -/
abbrev Bytes := List Nat

/-- The storage backend: a flat map from storage key (file name inside the
upload folder) to the stored bytes.  `file.save` prepends a binding;
`send_from_directory` is a lookup. -/
abbrev Storage := List (String × Bytes)

/-- src/app.py line 11: `VALID_API_KEY_PREFIX = "kaiiddo-ith"`. -/
def VALID_API_KEY_PREFIX : String := "kaiiddo-ith"

/-- src/app.py line 13: the full configured bearer secret. -/
def FULL_VALID_TOKEN : String :=
  VALID_API_KEY_PREFIX ++ "-8b7c4a1e9f2d6g3h5j0k9l8m7n6p5q4r"

/-- Helper for Python `str.split()` (no separator argument): accumulate the
current word (reversed) while scanning; whitespace ends a word, empty words
are dropped.  Python splits on Unicode whitespace; the service only ever
meets ASCII whitespace, modelled by `Char.isWhitespace`. -/
def pySplitChars : List Char → List Char → List (List Char)
  | [], [] => []
  | [], acc => [acc.reverse]
  | c :: rest, acc =>
    if c.isWhitespace then
      match acc with
      | [] => pySplitChars rest []
      | _ => acc.reverse :: pySplitChars rest []
    else pySplitChars rest (c :: acc)

/-- Python `s.split()` with no arguments: split on runs of whitespace,
discarding empty pieces. -/
def pySplit (s : String) : List String :=
  (pySplitChars s.toList []).map String.mk

/-- Python `str.lower()` on a single character (ASCII fragment; the only
use is comparing the auth scheme to the ASCII literal "bearer"). -/
def pyLowerChar (c : Char) : Char :=
  if 65 ≤ c.toNat ∧ c.toNat ≤ 90 then Char.ofNat (c.toNat + 32) else c

/-- Python `s.lower()` (ASCII fragment). -/
def pyLower (s : String) : String := String.mk (s.toList.map pyLowerChar)

/-- The three failure kinds of the authentication phase of
`api_upload_file` (src/app.py lines 83-107): header absent (or empty, which
`if not auth_header` also catches), header not exactly two
whitespace-separated tokens (`scheme, token = auth_header.split()` raises
`ValueError`), scheme/token mismatch. -/
inductive AuthError where
  | missingAuth
  | malformedAuth
  | invalidToken
deriving DecidableEq, Repr

/-- HTTP status attached to each authentication failure by the handler:
401 for the two header-shape failures, 403 for a token mismatch. -/
def authErrorStatus : AuthError → Nat
  | .missingAuth => 401
  | .malformedAuth => 401
  | .invalidToken => 403

/-- Error message bodies of src/app.py lines 88, 98, 106. -/
def authErrorMessage : AuthError → String
  | .missingAuth => "Authentication required. Missing Authorization header."
  | .malformedAuth => "Invalid Authorization header format. Must be 'Bearer [token]'."
  | .invalidToken => "Invalid Bearer Token."

/-- The authentication phase of `api_upload_file` (src/app.py lines
77-107).  `none` models an absent `Authorization` header
(`request.headers.get` returns `None`); `if not auth_header` is also true
for the empty string.  `auth_header.split()` must yield exactly two tokens;
then `scheme.lower() != 'bearer' or token != FULL_VALID_TOKEN` rejects. -/
def authenticate (header : Option String) : Except AuthError Unit :=
  match header with
  | none => .error .missingAuth
  | some h =>
    if h = "" then .error .missingAuth
    else
      match pySplit h with
      | [scheme, token] =>
        if pyLower scheme ≠ "bearer" ∨ token ≠ FULL_VALID_TOKEN then
          .error .invalidToken
        else .ok ()
      | _ => .error .malformedAuth

/-- In werkzeug's `secure_filename`, the characters kept by the regex
substitution `re.sub(r"[^A-Za-z0-9_.-]", "", ...)`. -/
def asciiSafe (c : Char) : Bool :=
  (65 ≤ c.toNat ∧ c.toNat ≤ 90) ∨ (97 ≤ c.toNat ∧ c.toNat ≤ 122) ∨
    (48 ≤ c.toNat ∧ c.toNat ≤ 57) ∨ c = '_' ∨ c = '.' ∨ c = '-'

/-- Python `s.strip("._")` on a char list: drop leading and trailing '.'
and '_' characters. -/
def stripDotUnderscore (l : List Char) : List Char :=
  ((l.dropWhile fun c => c = '.' ∨ c = '_').reverse.dropWhile
    fun c => c = '.' ∨ c = '_').reverse

/-- werkzeug `secure_filename` (called at src/app.py line 130), modelled
for the POSIX deployment the service runs on (`os.sep = '/'`,
`os.path.altsep = None`, `os.name != 'nt'` so the Windows device-name
branch is dead): NFKD-normalise and ASCII-encode-with-ignore (on ASCII
input this is the identity; modelled as dropping non-ASCII code points —
NFKD transliteration of non-ASCII is not modelled and no claim depends on
it), replace '/' with a space, `"_".join(filename.split())`, delete every
character outside [A-Za-z0-9_.-], and strip leading/trailing '.' and '_'. -/
def secure_filename (s : String) : String :=
  let ascii := s.toList.filter fun c => c.toNat < 128
  let sepReplaced := ascii.map fun c => if c = '/' then ' ' else c
  let joined := List.intercalate ['_'] (pySplitChars sepReplaced [])
  String.mk (stripDotUnderscore (joined.filter asciiSafe))

/-- Character for one hexadecimal digit, as produced by Python's `%x`
formatting inside `uuid.UUID.hex`: lower-case. -/
def hexDigitChar (n : Nat) : Char :=
  if n < 10 then Char.ofNat (48 + n) else Char.ofNat (87 + n)

/-- Fixed-width big-endian lower-case hexadecimal rendering of a natural
number (most significant digit first, zero-padded to the width). -/
def toHexFixed : Nat → Nat → List Char
  | 0, _ => []
  | w + 1, v => toHexFixed w (v / 16) ++ [hexDigitChar (v % 16)]

/-- Model of `uuid.uuid4().hex` (src/app.py line 131): the 32-character lower-case
hexadecimal rendering of the 128-bit UUID value.  The randomness is made
explicit as a `Nat` argument; `uuid4` forces the version/variant nibbles at
hex positions 12 and 16, which the handler's `[:12]` prefix never reaches,
so they are not modelled. -/
def uuid4Hex (r : Nat) : String := String.mk (toHexFixed 32 (r % 2 ^ 128))

/-- Model of `unique_id = uuid.uuid4().hex[:12]` (src/app.py line 131). -/
def uniqueIdOf (r : Nat) : String := String.mk ((uuid4Hex r).toList.take 12)

/-- One entry of `request.files`: werkzeug `FileStorage`, reduced to the
fields the handler touches: `filename` (always a string for multipart
uploads, possibly empty), the payload bytes written by `file.save`, and
`content_length` (echoed as `fileSize`). -/
structure FileField where
  filename : String
  content : Bytes
  contentLength : Nat
deriving DecidableEq, Repr

/-- The parts of a `/api/upload` request the handler reads: the
`Authorization` header (absent = `none`) and the multipart file fields
(`request.files` as an association list keyed by field name). -/
structure Request where
  authorization : Option String
  files : List (String × FileField)
deriving DecidableEq, Repr

/-- The success payload of `api_upload_file` (src/app.py lines 142-148).
`sharedId` and `fileName` are the two variable path segments of the
returned `sharedLink = request.url_root ++ "share/" ++ unique_id ++ "/" ++
filename`; `fileName` is also returned verbatim as the `fileName` field.
`uploadDate` (wall-clock time) and the constant URL prefix are not
modelled. -/
structure UploadSuccess where
  sharedId : String
  fileName : String
  fileSize : Nat
deriving DecidableEq, Repr

/-- Responses `api_upload_file` can produce: a JSON error body with its
HTTP status and `errorCode` field, a 200 success, or `serverCrash` for the
implicit `return None` fall-through after `if file:` (Flask turns a `None`
return into a 500; shown unreachable below). -/
inductive UploadResponse where
  | err (status errorCode : Nat) (msg : String)
  | ok (r : UploadSuccess)
  | serverCrash
deriving DecidableEq, Repr

/-- Whether a response is the 200 success. -/
def UploadResponse.isSuccess : UploadResponse → Bool
  | .ok _ => true
  | _ => false

/-- Handler for `POST /api/upload` (src/app.py lines 70-148).  Authentication phase,
then `'file' not in request.files` → 400, then `file.filename == ''` →
400, then `if file:` (werkzeug `FileStorage.__bool__` is
`bool(self.filename)`) guards the storage write: sanitize, draw
`unique_id`, save under `f"{unique_id}-{filename}"`, answer 200.  The
`rand` argument is the randomness consumed by `uuid.uuid4()`; the function
returns the response together with the updated storage directory. -/
def api_upload_file (req : Request) (rand : Nat) (st : Storage) :
    UploadResponse × Storage :=
  match authenticate req.authorization with
  | .error e => (.err (authErrorStatus e) (authErrorStatus e) (authErrorMessage e), st)
  | .ok () =>
    match req.files.lookup "file" with
    | none => (.err 400 400 "No file part in the request body.", st)
    | some f =>
      if f.filename = "" then
        (.err 400 400 "No selected file for upload.", st)
      else
        if f.filename ≠ "" then
          let filename := secure_filename f.filename
          let unique_id := uniqueIdOf rand
          let storage_filename := unique_id ++ "-" ++ filename
          (.ok ⟨unique_id, filename, f.contentLength⟩,
            (storage_filename, f.content) :: st)
        else (.serverCrash, st)

/-- Responses of the `/share/<file_id>/<filename>` route: the raw file
bytes (200) or the HTML 404 page. -/
inductive ShareResponse where
  | fileBytes (content : Bytes)
  | notFound (html : String)
deriving DecidableEq, Repr

/-- HTTP status of a share response. -/
def shareStatus : ShareResponse → Nat
  | .fileBytes _ => 200
  | .notFound _ => 404

/-- Body of the 404 page (src/app.py line 162). -/
def notFoundHtml (file_id filename : String) : String :=
  "<h1>404 Not Found</h1><p>The file associated with ID <code>" ++ file_id ++
    "</code> and filename <code>" ++ filename ++
    "</code> could not be located on the Kaiiddo Cloud server.</p>"

/-- Handler for `GET /share/<file_id>/<filename>` (src/app.py lines 151-162):
`send_from_directory(UPLOAD_FOLDER, f'{file_id}-{filename}')` inside a
`try`, with every exception collapsed to the 404 page.  In the flat-map
storage model, every read failure (key absent, or `send_from_directory`
refusing an unsafe name — no such name is ever stored) is a failed
lookup. -/
def serve_shared_file (st : Storage) (file_id filename : String) :
    ShareResponse :=
  match st.lookup (file_id ++ "-" ++ filename) with
  | some content => .fileBytes content
  | none => .notFound (notFoundHtml file_id filename)

/-- The storage-key derivation named by the spec:
`storageKey = id + "-" + sanitizedName`. -/
def storageKey (id name : String) : String := id ++ "-" ++ name

/-- Predicate for a lower-case hexadecimal character ('0'-'9' or 'a'-'f'),
the alphabet of `uuid.uuid4().hex`. -/
def isLowerHex (c : Char) : Bool :=
  (48 ≤ c.toNat ∧ c.toNat ≤ 57) ∨ (97 ≤ c.toNat ∧ c.toNat ≤ 102)

end ImageToUrlWeb

deriving instance DecidableEq for Except

namespace ImageToUrlWeb

/-! Helper lemmas shared by the claim theorems. -/

/-- Membership survives `dropWhile`. -/
theorem mem_of_mem_dropWhileB {α : Type} (p : α → Bool) (l : List α) (a : α)
    (h : a ∈ l.dropWhile p) : a ∈ l := by
  induction l with
  | nil => simp at h
  | cons x xs ih =>
    rw [List.dropWhile_cons] at h
    by_cases hx : p x = true
    · simp only [hx, if_true] at h
      exact List.mem_cons_of_mem _ (ih h)
    · simp only [hx, if_false] at h
      exact h

/-- Membership in the output of `stripDotUnderscore` implies membership in
its input. -/
theorem mem_of_mem_stripDotUnderscore (l : List Char) (c : Char)
    (h : c ∈ stripDotUnderscore l) : c ∈ l := by
  unfold stripDotUnderscore at h
  rw [List.mem_reverse] at h
  have h1 := mem_of_mem_dropWhileB _ _ _ h
  rw [List.mem_reverse] at h1
  exact mem_of_mem_dropWhileB _ _ _ h1

/-- Unfolding lemma: `(String.mk l).toList = l`. -/
theorem toList_mk (l : List Char) : (String.mk l).toList = l := rfl

/-- Every character of `toHexFixed` is a hex digit character. -/
theorem mem_toHexFixed (w : Nat) (v : Nat) (c : Char)
    (hc : c ∈ toHexFixed w v) : ∃ n : Fin 16, c = hexDigitChar n.val := by
  induction w generalizing v with
  | zero => simp [toHexFixed] at hc
  | succ w ih =>
    rw [toHexFixed, List.mem_append] at hc
    rcases hc with h | h
    · exact ih _ h
    · refine ⟨⟨v % 16, Nat.mod_lt _ (by norm_num)⟩, ?_⟩
      simpa using h

/-- Length of `toHexFixed` is its width. -/
theorem toHexFixed_length (w : Nat) (v : Nat) : (toHexFixed w v).length = w := by
  induction w generalizing v with
  | zero => rfl
  | succ w ih => simp [toHexFixed, ih]

/-- All sixteen hex digit characters are lower-case hexadecimal. -/
theorem hexDigitChar_isLowerHex :
    ∀ n : Fin 16, isLowerHex (hexDigitChar n.val) = true := by decide

/-- C9: Every identifier generated by StoreUpload
(`unique_id = uuid.uuid4().hex[:12]`) is a string of exactly 12 lower-case
hexadecimal characters, whatever 128-bit random value the UUID draws. -/
theorem uniqueId_twelve_lower_hex (r : Nat) :
    (uniqueIdOf r).length = 12 ∧
      ∀ c ∈ (uniqueIdOf r).toList, isLowerHex c = true := by
  constructor
  · show ((uuid4Hex r).toList.take 12).length = 12
    rw [List.length_take, uuid4Hex, toList_mk, toHexFixed_length]
    decide
  · intro c hc
    rw [uniqueIdOf, toList_mk, uuid4Hex, toList_mk] at hc
    have h1 : c ∈ toHexFixed 32 (r % 2 ^ 128) := List.mem_of_mem_take hc
    obtain ⟨n, rfl⟩ := mem_toHexFixed _ _ _ h1
    exact hexDigitChar_isLowerHex n

/-- C9 witness: the identifier drawn from randomness 0. -/
theorem uniqueId_twelve_lower_hex_witness :
    (uniqueIdOf 0).length = 12 ∧ isLowerHex '0' = true :=
  ⟨(uniqueId_twelve_lower_hex 0).1,
    (uniqueId_twelve_lower_hex 0).2 '0' (by decide)⟩

/-- C5: For every client-supplied filename, every character of the
sanitized name (`secure_filename`) used to build the storage key lies in
the safe class `[A-Za-z0-9_.-]`; in particular it is neither '/' nor '\\',
so the name contains no directory separators and the write of
`api_upload_file` stays inside the storage directory. -/
theorem secure_filename_no_separators (s : String) :
    ∀ c ∈ (secure_filename s).toList,
      asciiSafe c = true ∧ c ≠ '/' ∧ c ≠ '\\' := by
  intro c hc
  rw [secure_filename, toList_mk] at hc
  have h1 := mem_of_mem_stripDotUnderscore _ _ hc
  have h2 : asciiSafe c = true := List.of_mem_filter h1
  refine ⟨h2, ?_, ?_⟩ <;> rintro rfl <;> simp [asciiSafe] at h2

/-- C5 witness: the character kept from the traversal payload
"../../etc/passwd" (whose sanitized form is "etc_passwd"). -/
theorem secure_filename_no_separators_witness :
    asciiSafe 'e' = true ∧ 'e' ≠ '/' ∧ 'e' ≠ '\\' :=
  secure_filename_no_separators "../../etc/passwd" 'e' (by decide)

/-- Unfolding equation of `authenticate` on a present header. -/
theorem authenticate_some_eq (s : String) :
    authenticate (some s) =
      (if s = "" then .error .missingAuth
       else
         match pySplit s with
         | [scheme, token] =>
           if pyLower scheme ≠ "bearer" ∨ token ≠ FULL_VALID_TOKEN then
             .error .invalidToken
           else .ok ()
         | _ => .error .malformedAuth) := rfl

/-- Splitting the empty string yields no tokens. -/
theorem pySplit_empty : pySplit "" = [] := rfl

/-- Evaluation of `authenticate` when the header splits into exactly two
tokens. -/
theorem authenticate_pair (s a b : String) (hs : s ≠ "")
    (hp : pySplit s = [a, b]) :
    authenticate (some s) =
      (if pyLower a ≠ "bearer" ∨ b ≠ FULL_VALID_TOKEN then
        .error .invalidToken
      else .ok ()) := by
  rw [authenticate_some_eq, if_neg hs, hp]

/-- Evaluation of `authenticate` when the non-empty header does not split
into exactly two tokens (`scheme, token = auth_header.split()` raises
`ValueError`). -/
theorem authenticate_notPair (s : String) (hs : s ≠ "")
    (hlen : (pySplit s).length ≠ 2) :
    authenticate (some s) = .error .malformedAuth := by
  rw [authenticate_some_eq, if_neg hs]
  rcases hp : pySplit s with _ | ⟨a, _ | ⟨b, _ | l⟩⟩
  · rfl
  · rfl
  · rw [hp] at hlen
    simp at hlen
  · rfl

/-- C2: the authentication phase's full classification.  An absent header,
or one that does not split into exactly two whitespace-separated tokens
(the empty header included), is rejected with status 401; a two-token
header whose scheme is not case-insensitively "bearer" or whose second
token differs from the configured secret is rejected `invalidToken` with
status 403; a two-token header with matching scheme and secret is
accepted and the request proceeds. -/
theorem authenticate_status_taxonomy (header : Option String) :
    ((header = none ∨ ∃ s, header = some s ∧ (pySplit s).length ≠ 2) →
      ∃ e, authenticate header = .error e ∧ authErrorStatus e = 401) ∧
    (∀ s scheme token, header = some s → pySplit s = [scheme, token] →
      pyLower scheme ≠ "bearer" ∨ token ≠ FULL_VALID_TOKEN →
      authenticate header = .error .invalidToken ∧
        authErrorStatus .invalidToken = 403) ∧
    (∀ s scheme token, header = some s → pySplit s = [scheme, token] →
      pyLower scheme = "bearer" → token = FULL_VALID_TOKEN →
      authenticate header = .ok ()) := by
  refine ⟨?_, ?_, ?_⟩
  · rintro (rfl | ⟨s, rfl, hlen⟩)
    · exact ⟨.missingAuth, rfl, rfl⟩
    · by_cases hs : s = ""
      · subst hs
        exact ⟨.missingAuth, rfl, rfl⟩
      · exact ⟨.malformedAuth, authenticate_notPair s hs hlen, rfl⟩
  · rintro s scheme token rfl hp hbad
    have hs : s ≠ "" := by
      rintro rfl
      rw [pySplit_empty] at hp
      simp at hp
    rw [authenticate_pair s scheme token hs hp]
    exact ⟨if_pos hbad, rfl⟩
  · rintro s scheme token rfl hp hsch htok
    have hs : s ≠ "" := by
      rintro rfl
      rw [pySplit_empty] at hp
      simp at hp
    rw [authenticate_pair s scheme token hs hp]
    exact if_neg (by simp [hsch, htok])

/-- C2 witness: an absent header is rejected with status 401. -/
theorem authenticate_status_taxonomy_witness :
    ∃ e, authenticate none = .error e ∧ authErrorStatus e = 401 :=
  (authenticate_status_taxonomy none).1 (Or.inl rfl)

/-- C3 counterexample: the header "bearer <secret>" (lower-case scheme) is
not the exact string "Bearer <secret>", yet authentication accepts it, so
the exact string is not the only accepted header. -/
theorem bearer_lowercase_accepted :
    authenticate (some ("bearer " ++ FULL_VALID_TOKEN)) = .ok () ∧
      "bearer " ++ FULL_VALID_TOKEN ≠ "Bearer " ++ FULL_VALID_TOKEN :=
  ⟨rfl, by decide⟩

/-- C3 amended: `Authenticate("Bearer " + secret)` succeeds, and a header
is accepted exactly when it splits into two whitespace-separated tokens
whose first lower-cases to "bearer" and whose second equals the configured
secret byte-for-byte (so e.g. "bearer <secret>" is also accepted). -/
theorem authenticate_accepts_iff :
    authenticate (some ("Bearer " ++ FULL_VALID_TOKEN)) = .ok () ∧
    ∀ h : String, (authenticate (some h) = .ok () ↔
      ∃ scheme, pySplit h = [scheme, FULL_VALID_TOKEN] ∧
        pyLower scheme = "bearer") := by
  constructor
  · rfl
  · intro h
    by_cases hs : h = ""
    · subst hs
      rw [pySplit_empty]
      constructor
      · intro hh
        exact absurd hh (by decide)
      · rintro ⟨scheme, hsch, -⟩
        simp at hsch
    · rcases hp : pySplit h with _ | ⟨a, _ | ⟨b, _ | l⟩⟩
      · rw [authenticate_notPair h hs (by rw [hp]; decide)]
        simp
      · rw [authenticate_notPair h hs (by rw [hp]; simp)]
        simp
      · rw [authenticate_pair h a b hs hp]
        split_ifs with hcond
        · constructor
          · intro hh
            exact absurd hh (by simp)
          · rintro ⟨scheme, hsch, hlow⟩
            rw [List.cons.injEq, List.cons.injEq] at hsch
            rcases hcond with hc | hc
            · exact hc (hsch.1 ▸ hlow)
            · exact hc hsch.2.1
        · push_neg at hcond
          obtain ⟨h1, h2⟩ := hcond
          subst h2
          simp [h1]
      · rw [authenticate_notPair h hs (by rw [hp]; simp)]
        simp

/-- C3 amended witness: acceptance of the lower-case-scheme header yields
its two-token decomposition. -/
theorem authenticate_accepts_iff_witness :
    ∃ scheme, pySplit ("bearer " ++ FULL_VALID_TOKEN) =
        [scheme, FULL_VALID_TOKEN] ∧ pyLower scheme = "bearer" :=
  (authenticate_accepts_iff.2 ("bearer " ++ FULL_VALID_TOKEN)).mp (by decide)

/-- Appending the empty string on the right is the identity. -/
theorem append_empty_right (s : String) : s ++ "" = s := by
  cases s with
  | mk data =>
    show String.mk (data ++ []) = String.mk data
    rw [List.append_nil]

/-- Evaluation of the upload handler on an authenticated request carrying
a "file" field with a non-empty raw filename: the payload is stored under
`unique_id ++ "-" ++ sanitized` and the 200 response carries the two share
path segments. -/
theorem api_upload_file_success (auth : Option String)
    (files : List (String × FileField)) (f : FileField) (rand : Nat)
    (st : Storage)
    (hauth : authenticate auth = .ok ())
    (hfile : files.lookup "file" = some f)
    (hname : f.filename ≠ "") :
    api_upload_file ⟨auth, files⟩ rand st =
      (.ok ⟨uniqueIdOf rand, secure_filename f.filename, f.contentLength⟩,
        (uniqueIdOf rand ++ "-" ++ secure_filename f.filename, f.content)
          :: st) := by
  simp [api_upload_file, hauth, hfile, hname]

/-- C1: round-trip.  Under a successful upload (authenticated request, a
"file" field with a non-empty filename and payload bytes B), the handler
returns 200 with segments (id, sanitizedName), and retrieving those two
share-link path segments from the post-upload storage returns exactly the
bytes B. -/
theorem upload_retrieve_roundtrip (auth : Option String)
    (files : List (String × FileField)) (f : FileField) (rand : Nat)
    (st : Storage)
    (hauth : authenticate auth = .ok ())
    (hfile : files.lookup "file" = some f)
    (hname : f.filename ≠ "") :
    ∃ st', api_upload_file ⟨auth, files⟩ rand st =
        (.ok ⟨uniqueIdOf rand, secure_filename f.filename, f.contentLength⟩,
          st') ∧
      serve_shared_file st' (uniqueIdOf rand) (secure_filename f.filename) =
        .fileBytes f.content := by
  refine ⟨_, api_upload_file_success auth files f rand st hauth hfile hname,
    ?_⟩
  simp [serve_shared_file, List.lookup]

/-- C1 witness: uploading "hello.txt" with bytes "hi" and retrieving it. -/
theorem upload_retrieve_roundtrip_witness :
    ∃ st', api_upload_file ⟨some ("Bearer " ++ FULL_VALID_TOKEN),
        [("file", ⟨"hello.txt", [104, 105], 2⟩)]⟩ 0 [] =
        (.ok ⟨uniqueIdOf 0, secure_filename "hello.txt", 2⟩, st') ∧
      serve_shared_file st' (uniqueIdOf 0) (secure_filename "hello.txt") =
        .fileBytes [104, 105] :=
  upload_retrieve_roundtrip (some ("Bearer " ++ FULL_VALID_TOKEN))
    [("file", ⟨"hello.txt", [104, 105], 2⟩)] ⟨"hello.txt", [104, 105], 2⟩
    0 [] rfl rfl (by decide)

/-- C4: on an authenticated upload request, a missing "file" field is
rejected 400 ("No file part in the request body."), a present field whose
filename is empty is rejected 400 ("No selected file for upload."), and a
present field with a non-empty filename always yields the 200 success —
the two 400 rejections are the only upload-validation failures. -/
theorem upload_validation_failures (auth : Option String)
    (files : List (String × FileField)) (rand : Nat) (st : Storage)
    (hauth : authenticate auth = .ok ()) :
    (files.lookup "file" = none →
      api_upload_file ⟨auth, files⟩ rand st =
        (.err 400 400 "No file part in the request body.", st)) ∧
    (∀ f, files.lookup "file" = some f → f.filename = "" →
      api_upload_file ⟨auth, files⟩ rand st =
        (.err 400 400 "No selected file for upload.", st)) ∧
    (∀ f, files.lookup "file" = some f → f.filename ≠ "" →
      (api_upload_file ⟨auth, files⟩ rand st).1.isSuccess = true) := by
  refine ⟨?_, ?_, ?_⟩
  · intro hnone
    simp [api_upload_file, hauth, hnone]
  · intro f hf hempty
    simp [api_upload_file, hauth, hf, hempty]
  · intro f hf hname
    rw [api_upload_file_success auth files f rand st hauth hf hname]
    rfl

/-- C4 witness: an authenticated request with no file field at all is
answered with the MissingFile 400. -/
theorem upload_validation_failures_witness :
    api_upload_file ⟨some ("Bearer " ++ FULL_VALID_TOKEN), []⟩ 0 [] =
      (.err 400 400 "No file part in the request body.", []) :=
  (upload_validation_failures (some ("Bearer " ++ FULL_VALID_TOKEN)) [] 0 []
    rfl).1 rfl

/-- C6: when the storage key `file_id ++ "-" ++ filename` does not
resolve, retrieval answers with the single NotFound page (status 404); and
every retrieval response is either the 200 byte stream or that 404 — no
other failure kind is ever returned (the handler's `except Exception`
collapses every read failure into the 404). -/
theorem retrieve_notfound_only (st : Storage) (file_id filename : String) :
    (st.lookup (file_id ++ "-" ++ filename) = none →
      serve_shared_file st file_id filename =
        .notFound (notFoundHtml file_id filename)) ∧
    (shareStatus (serve_shared_file st file_id filename) = 200 ∨
      shareStatus (serve_shared_file st file_id filename) = 404) := by
  constructor
  · intro hnone
    simp [serve_shared_file, hnone]
  · cases hl : st.lookup (file_id ++ "-" ++ filename) with
    | none =>
      right
      simp [serve_shared_file, hl, shareStatus]
    | some b =>
      left
      simp [serve_shared_file, hl, shareStatus]

/-- C6 witness: retrieving from empty storage is the 404 NotFound. -/
theorem retrieve_notfound_only_witness :
    serve_shared_file [] "a" "b" = .notFound (notFoundHtml "a" "b") :=
  (retrieve_notfound_only [] "a" "b").1 rfl

/-- C7: both operations address storage through the single key derivation
`storageKey`: a successful upload writes the payload under
`storageKey unique_id sanitizedName` and nothing else, and retrieval reads
exactly `storageKey file_id filename` from the backend. -/
theorem storage_key_agreement (auth : Option String)
    (files : List (String × FileField)) (f : FileField) (rand : Nat)
    (st : Storage)
    (hauth : authenticate auth = .ok ())
    (hfile : files.lookup "file" = some f)
    (hname : f.filename ≠ "") :
    (api_upload_file ⟨auth, files⟩ rand st).2 =
      (storageKey (uniqueIdOf rand) (secure_filename f.filename), f.content)
        :: st ∧
    ∀ (st₂ : Storage) (i n : String),
      serve_shared_file st₂ i n =
        (match st₂.lookup (storageKey i n) with
         | some b => ShareResponse.fileBytes b
         | none => ShareResponse.notFound (notFoundHtml i n)) := by
  constructor
  · rw [api_upload_file_success auth files f rand st hauth hfile hname]
    rfl
  · intro st₂ i n
    rfl

/-- C7 witness: the binding written by a concrete successful upload is at
`storageKey id sanitizedName`. -/
theorem storage_key_agreement_witness :
    (api_upload_file ⟨some ("Bearer " ++ FULL_VALID_TOKEN),
        [("file", ⟨"hello.txt", [104, 105], 2⟩)]⟩ 0 []).2 =
      [(storageKey (uniqueIdOf 0) (secure_filename "hello.txt"),
        [104, 105])] :=
  (storage_key_agreement (some ("Bearer " ++ FULL_VALID_TOKEN))
    [("file", ⟨"hello.txt", [104, 105], 2⟩)] ⟨"hello.txt", [104, 105], 2⟩
    0 [] rfl rfl (by decide)).1

/-- C8: an upload request answered by anything other than the 200 success
leaves the storage unchanged; and authentication precedes the file check,
so whenever authentication fails the response is not a success and nothing
is stored, whatever the request body holds. -/
theorem upload_error_no_write (req : Request) (rand : Nat) (st : Storage) :
    ((api_upload_file req rand st).1.isSuccess = false →
      (api_upload_file req rand st).2 = st) ∧
    (∀ e, authenticate req.authorization = .error e →
      (api_upload_file req rand st).1.isSuccess = false ∧
      (api_upload_file req rand st).2 = st) := by
  cases ha : authenticate req.authorization with
  | error e =>
    constructor
    · intro _
      simp [api_upload_file, ha]
    · intro e' _
      constructor <;> simp [api_upload_file, ha, UploadResponse.isSuccess]
  | ok u =>
    cases u
    constructor
    · intro hfail
      cases hf : req.files.lookup "file" with
      | none => simp [api_upload_file, ha, hf]
      | some f =>
        by_cases hn : f.filename = ""
        · simp [api_upload_file, ha, hf, hn]
        · exfalso
          have hs := api_upload_file_success req.authorization req.files f
            rand st ha hf hn
          rw [show (⟨req.authorization, req.files⟩ : Request) = req
            from rfl] at hs
          rw [hs] at hfail
          simp [UploadResponse.isSuccess] at hfail
    · intro e' he'
      simp at he'

/-- C8 witness: a request with no Authorization header and an empty body
is rejected and stores nothing. -/
theorem upload_error_no_write_witness :
    (api_upload_file ⟨none, []⟩ 0 []).1.isSuccess = false ∧
      (api_upload_file ⟨none, []⟩ 0 []).2 = [] :=
  (upload_error_no_write ⟨none, []⟩ 0 []).2 .missingAuth rfl

/-- C10: when the raw client filename is non-empty but sanitizes to the
empty string (e.g. "../.."), the upload does not fail with EmptyFilename —
that check reads the raw name — and instead succeeds with 200, a
`fileName` equal to the empty string, and the payload stored under the
bare key `unique_id ++ "-"`. -/
theorem empty_sanitized_name_succeeds (auth : Option String)
    (files : List (String × FileField)) (f : FileField) (rand : Nat)
    (st : Storage)
    (hauth : authenticate auth = .ok ())
    (hfile : files.lookup "file" = some f)
    (hraw : f.filename ≠ "")
    (hsan : secure_filename f.filename = "") :
    api_upload_file ⟨auth, files⟩ rand st =
      (.ok ⟨uniqueIdOf rand, "", f.contentLength⟩,
        (uniqueIdOf rand ++ "-", f.content) :: st) := by
  rw [api_upload_file_success auth files f rand st hauth hfile hraw, hsan,
    append_empty_right]

/-- C10 witness: uploading a file named "../.." succeeds, reports
`fileName = ""` and stores the bytes under `uniqueIdOf 0 ++ "-"`. -/
theorem empty_sanitized_name_succeeds_witness :
    api_upload_file ⟨some ("Bearer " ++ FULL_VALID_TOKEN),
        [("file", ⟨"../..", [1, 2, 3], 3⟩)]⟩ 0 [] =
      (.ok ⟨uniqueIdOf 0, "", 3⟩, [(uniqueIdOf 0 ++ "-", [1, 2, 3])]) :=
  empty_sanitized_name_succeeds (some ("Bearer " ++ FULL_VALID_TOKEN))
    [("file", ⟨"../..", [1, 2, 3], 3⟩)] ⟨"../..", [1, 2, 3], 3⟩ 0 []
    rfl rfl (by decide) (by decide)

end ImageToUrlWeb
